import Mathlib

/-!
Verification of the page-monitor control loop (`src/main.py`).

The program periodically fetches the text of one CSS region of a page,
hashes it, compares the hash with the stored one, and publishes
notifications to two SNS topics (a change topic and a health topic).
The control loop in `main` is embedded below as pure functions:

* the fetch attempt (`driver.get` + `wait.until` + `element.text`,
  classified by the `except` clauses) becomes a `FetchResult` input,
  one per cycle;
* `get_sha1_hash` (a call into `hashlib`) is externalized as a
  parameter `hash : String → String`; the loop logic depends only on
  equality of digests, never on their structure;
* each `sns.publish`, each fetch attempt, `time.sleep` and
  `driver.quit` become entries of an event trace, in the order the
  statements execute;
* the mutable variables `init_hash`, `change_counter`, `time_counter`
  become the fields of `MonitorState`.
-/

/-- `URL_LINK` from `src/main.py`. -/
def URL_LINK : String := "https://canada.mid.ru/ru_RU/novosti"

/-- `CLASS_ELEMENT` from `src/main.py`. -/
def CLASS_ELEMENT : String := "portlet"

/-- `WEB_PAGE_MONITOR_CHANGES_TO_EXIT` from `src/main.py`. -/
def WEB_PAGE_MONITOR_CHANGES_TO_EXIT : Nat := 10

/-- `TIME_TO_REPORT_STATUS_MIN` from `src/main.py`. -/
def TIME_TO_REPORT_STATUS_MIN : Nat := 120

/-- Outcome of one fetch attempt, as classified by the `except` clauses
of the loop body: `NoSuchElementException` → `notFound`,
`TimeoutException` → `timeout`, any other exception → `unexpectedError`
carrying the diagnostic text (`traceback.format_exc()`). -/
inductive FetchResult where
  | success (text : String)
  | notFound
  | timeout
  | unexpectedError (detail : String)
deriving DecidableEq

/-- The two SNS topics of `src/main.py`: `CHANGE_STATUS_TOPIC` and
`HEALTH_STATUS_TOPIC`. -/
inductive Topic where
  | changeStatus
  | healthStatus
deriving DecidableEq

/-- The distinct message payloads published by `src/main.py`, one
constructor per `sns.publish` message expression. -/
inductive Msg where
  | startMonitoring
  | changeDetected
  | noChangeStatus
  | fatal (detail : String)
  | stopped
deriving DecidableEq

/-- The string each `Msg` constructor renders to in `src/main.py`
(`Msg.fatal detail` renders to the traceback text `detail`). -/
def Msg.render : Msg → String
  | Msg.startMonitoring => "Start monitoring " ++ URL_LINK
  | Msg.changeDetected => "The page has been changed. Go check: " ++ URL_LINK
  | Msg.noChangeStatus => "Status: No change. Keep monitoring"
  | Msg.fatal detail => detail
  | Msg.stopped => "Script to monitor " ++ URL_LINK ++ " has stopped"

/-- Observable events of a run, in statement order: a fetch attempt
(`driver.get` + `wait.until`), a publish (`sns.publish`), the
inter-cycle pause (`time.sleep` in the `finally` clause), and the
driver shutdown (`driver.quit`). -/
inductive Event where
  | fetchAttempt
  | publish (topic : Topic) (msg : Msg)
  | sleep
  | quitDriver
deriving DecidableEq

/-- The loop's mutable variables in `main`: `init_hash`,
`change_counter`, `time_counter`. -/
structure MonitorState where
  initHash : String
  changeCounter : Nat
  timeCounter : Nat
deriving DecidableEq

/-- The two numeric thresholds the loop reads:
`WEB_PAGE_MONITOR_CHANGES_TO_EXIT` and `TIME_TO_REPORT_STATUS_MIN`. -/
structure Config where
  maxChanges : Nat
  reportThreshold : Nat
deriving DecidableEq

/-- The constants of `src/main.py`. -/
def defaultConfig : Config :=
  ⟨WEB_PAGE_MONITOR_CHANGES_TO_EXIT, TIME_TO_REPORT_STATUS_MIN⟩

/-- Whether the cycle falls through to the next iteration (`continue`
behaviour) or ends the loop (`break` in the unexpected-exception
handler). -/
inductive CycleOutcome where
  | cont
  | fatal
deriving DecidableEq

/-- One iteration of the `while` body of `main` (lines 140–197):
branch on the fetch outcome, update the state, record the publishes,
and always end with the `finally` sleep.  The change branch
(`init_hash != current_hash`) publishes to both topics, then sets
`init_hash` and increments `change_counter`.  The no-change branch
first tests `time_counter >= TIME_TO_REPORT_STATUS_MIN`, publishing
the status message and resetting `time_counter` to 0 when it holds,
and then increments `time_counter`.  `NoSuchElementException` and
`TimeoutException` only log.  Any other exception publishes the
traceback to the health topic and breaks. -/
def monitorCycle (cfg : Config) (hash : String → String) (st : MonitorState) :
    FetchResult → MonitorState × List Event × CycleOutcome
  | FetchResult.success text =>
    let currentHash := hash text
    if st.initHash ≠ currentHash then
      (⟨currentHash, st.changeCounter + 1, st.timeCounter⟩,
       [Event.fetchAttempt,
        Event.publish Topic.changeStatus Msg.changeDetected,
        Event.publish Topic.healthStatus Msg.changeDetected,
        Event.sleep],
       CycleOutcome.cont)
    else
      if cfg.reportThreshold ≤ st.timeCounter then
        -- `time_counter = 0` followed by `time_counter += 1`
        (⟨st.initHash, st.changeCounter, 0 + 1⟩,
         [Event.fetchAttempt,
          Event.publish Topic.healthStatus Msg.noChangeStatus,
          Event.sleep],
         CycleOutcome.cont)
      else
        (⟨st.initHash, st.changeCounter, st.timeCounter + 1⟩,
         [Event.fetchAttempt, Event.sleep],
         CycleOutcome.cont)
  | FetchResult.notFound =>
    (st, [Event.fetchAttempt, Event.sleep], CycleOutcome.cont)
  | FetchResult.timeout =>
    (st, [Event.fetchAttempt, Event.sleep], CycleOutcome.cont)
  | FetchResult.unexpectedError detail =>
    (st, [Event.fetchAttempt,
          Event.publish Topic.healthStatus (Msg.fatal detail),
          Event.sleep],
     CycleOutcome.fatal)

/-- How a finite run of the `while` loop ended: the guard
`change_counter < WEB_PAGE_MONITOR_CHANGES_TO_EXIT` failed, the
unexpected-exception `break` fired, or the supplied list of fetch
outcomes ran out while the loop would still continue. -/
inductive LoopExit where
  | maxReached
  | fatalError
  | outOfInput
deriving DecidableEq

/-- The `while change_counter < WEB_PAGE_MONITOR_CHANGES_TO_EXIT` loop
of `main`, driven by a finite list of fetch outcomes (one per
attempted cycle).  Returns the final state, the concatenated event
trace, and how the run ended. -/
def monitorLoop (cfg : Config) (hash : String → String) :
    MonitorState → List FetchResult → MonitorState × List Event × LoopExit
  | st, [] =>
    if cfg.maxChanges ≤ st.changeCounter then (st, [], LoopExit.maxReached)
    else (st, [], LoopExit.outOfInput)
  | st, fr :: rest =>
    if cfg.maxChanges ≤ st.changeCounter then (st, [], LoopExit.maxReached)
    else
      let c := monitorCycle cfg hash st fr
      match c.2.2 with
      | CycleOutcome.fatal => (c.1, c.2.1, LoopExit.fatalError)
      | CycleOutcome.cont =>
        let r := monitorLoop cfg hash c.1 rest
        (r.1, c.2.1 ++ r.2.1, r.2.2)

/-- How a whole invocation of `main` ended: `crashed` when the
bootstrap fetch (lines 128–134, outside any `try`) raised, so the
uncaught exception ended the process; `inProgress` when the supplied
fetch outcomes ran out with the loop still running; `finished` when
the loop exited and the epilogue (lines 199–207) ran. -/
inductive RunResult where
  | crashed
  | inProgress (st : MonitorState)
  | finished (st : MonitorState) (exitKind : LoopExit)
deriving DecidableEq

/-- The body of `main` (lines 108–207): publish the start message to
the health topic, perform the bootstrap fetch establishing
`init_hash`, run the loop from `change_counter = 0`,
`time_counter = 0`, and, when the loop exits, quit the driver and
publish the stop message to the health topic. -/
def monitorRun (cfg : Config) (hash : String → String)
    (bootstrap : FetchResult) (frs : List FetchResult) :
    List Event × RunResult :=
  let pre : List Event :=
    [Event.publish Topic.healthStatus Msg.startMonitoring, Event.fetchAttempt]
  match bootstrap with
  | FetchResult.success text =>
    let r := monitorLoop cfg hash ⟨hash text, 0, 0⟩ frs
    match r.2.2 with
    | LoopExit.outOfInput => (pre ++ r.2.1, RunResult.inProgress r.1)
    | LoopExit.maxReached =>
      (pre ++ r.2.1 ++
         [Event.quitDriver, Event.publish Topic.healthStatus Msg.stopped],
       RunResult.finished r.1 LoopExit.maxReached)
    | LoopExit.fatalError =>
      (pre ++ r.2.1 ++
         [Event.quitDriver, Event.publish Topic.healthStatus Msg.stopped],
       RunResult.finished r.1 LoopExit.fatalError)
  | _ => (pre, RunResult.crashed)

/-- Whether a cycle with fetch outcome `fr` from state `st` detects a
change: the fetch succeeded and the digest of its text differs from
the stored one. -/
def cycleDetectsChange (hash : String → String) (st : MonitorState) :
    FetchResult → Bool
  | FetchResult.success text => st.initHash != hash text
  | _ => false

/-- The number of change cycles along a sequence of fetch outcomes:
cycles whose fetch succeeded with a digest different from the
immediately preceding stored digest (which a change cycle updates). -/
def changeCycleCount (hash : String → String) : String → List FetchResult → Nat
  | _, [] => 0
  | cur, FetchResult.success text :: rest =>
    if cur ≠ hash text then changeCycleCount hash (hash text) rest + 1
    else changeCycleCount hash cur rest
  | cur, FetchResult.notFound :: rest => changeCycleCount hash cur rest
  | cur, FetchResult.timeout :: rest => changeCycleCount hash cur rest
  | cur, FetchResult.unexpectedError _ :: rest => changeCycleCount hash cur rest

/-- Test for the start-message publish event. -/
def isStartedEvent : Event → Bool
  | Event.publish Topic.healthStatus Msg.startMonitoring => true
  | _ => false

/-- Test for the no-change status publish event (the health report). -/
def isHealthOkEvent : Event → Bool
  | Event.publish Topic.healthStatus Msg.noChangeStatus => true
  | _ => false

/-- Number of start-message publishes in a trace. -/
def countStarted (l : List Event) : Nat := (l.filter isStartedEvent).length

/-- Number of health-report publishes in a trace. -/
def countHealthOk (l : List Event) : Nat := (l.filter isHealthOkEvent).length

/-- Test for events relevant to fetch spacing: fetch attempts and
sleeps. -/
def isFetchOrSleep : Event → Bool
  | Event.fetchAttempt => true
  | Event.sleep => true
  | _ => false

/-- Test for a fetch attempt. -/
def isFetchEvent : Event → Bool
  | Event.fetchAttempt => true
  | _ => false

/-- No two adjacent entries of the list are both fetch attempts.
Applied to a trace filtered by `isFetchOrSleep`, this says every two
fetch attempts have a sleep between them. -/
def noAdjacentFetches : List Event → Bool
  | [] => true
  | [_] => true
  | a :: b :: rest =>
    !(isFetchEvent a && isFetchEvent b) && noAdjacentFetches (b :: rest)

/-- The change branch of the cycle (lines 147–162) with the exception
semantics of its two `sns.publish` calls made explicit: `pub1` and
`pub2` are `none` when the corresponding publish succeeds and
`some e` when it raises with diagnostic `e`.  A raise jumps to the
generic `except Exception` handler, which publishes the traceback to
the health topic and breaks — before `init_hash` and `change_counter`
are assigned, since those assignments follow both publishes in the
source.  The `finally` sleep still runs. -/
def successCycleWithPublish (cfg : Config) (st : MonitorState)
    (currentHash : String) (pub1 pub2 : Option String) :
    MonitorState × List Event × CycleOutcome :=
  if st.initHash ≠ currentHash then
    match pub1 with
    | some e =>
      (st, [Event.fetchAttempt,
            Event.publish Topic.healthStatus (Msg.fatal e),
            Event.sleep],
       CycleOutcome.fatal)
    | none =>
      match pub2 with
      | some e =>
        (st, [Event.fetchAttempt,
              Event.publish Topic.changeStatus Msg.changeDetected,
              Event.publish Topic.healthStatus (Msg.fatal e),
              Event.sleep],
         CycleOutcome.fatal)
      | none =>
        (⟨currentHash, st.changeCounter + 1, st.timeCounter⟩,
         [Event.fetchAttempt,
          Event.publish Topic.changeStatus Msg.changeDetected,
          Event.publish Topic.healthStatus Msg.changeDetected,
          Event.sleep],
         CycleOutcome.cont)
  else
    if cfg.reportThreshold ≤ st.timeCounter then
      (⟨st.initHash, st.changeCounter, 0 + 1⟩,
       [Event.fetchAttempt,
        Event.publish Topic.healthStatus Msg.noChangeStatus,
        Event.sleep],
       CycleOutcome.cont)
    else
      (⟨st.initHash, st.changeCounter, st.timeCounter + 1⟩,
       [Event.fetchAttempt, Event.sleep],
       CycleOutcome.cont)

/-! ## Helper lemmas shared between claims -/

lemma monitorCycle_notFound (cfg : Config) (hash : String → String)
    (st : MonitorState) :
    monitorCycle cfg hash st FetchResult.notFound =
      (st, [Event.fetchAttempt, Event.sleep], CycleOutcome.cont) := rfl

lemma monitorCycle_timeout (cfg : Config) (hash : String → String)
    (st : MonitorState) :
    monitorCycle cfg hash st FetchResult.timeout =
      (st, [Event.fetchAttempt, Event.sleep], CycleOutcome.cont) := rfl

lemma monitorCycle_unexpected (cfg : Config) (hash : String → String)
    (st : MonitorState) (d : String) :
    monitorCycle cfg hash st (FetchResult.unexpectedError d) =
      (st, [Event.fetchAttempt,
            Event.publish Topic.healthStatus (Msg.fatal d),
            Event.sleep],
       CycleOutcome.fatal) := rfl

lemma monitorCycle_success_change (cfg : Config) (hash : String → String)
    (st : MonitorState) (text : String) (h : st.initHash ≠ hash text) :
    monitorCycle cfg hash st (FetchResult.success text) =
      (⟨hash text, st.changeCounter + 1, st.timeCounter⟩,
       [Event.fetchAttempt,
        Event.publish Topic.changeStatus Msg.changeDetected,
        Event.publish Topic.healthStatus Msg.changeDetected,
        Event.sleep],
       CycleOutcome.cont) := by
  simp only [monitorCycle, if_pos h]

lemma monitorCycle_success_report (cfg : Config) (hash : String → String)
    (st : MonitorState) (text : String) (h : st.initHash = hash text)
    (hth : cfg.reportThreshold ≤ st.timeCounter) :
    monitorCycle cfg hash st (FetchResult.success text) =
      (⟨st.initHash, st.changeCounter, 0 + 1⟩,
       [Event.fetchAttempt,
        Event.publish Topic.healthStatus Msg.noChangeStatus,
        Event.sleep],
       CycleOutcome.cont) := by
  have hne : ¬ st.initHash ≠ hash text := by simp [h]
  simp only [monitorCycle, if_neg hne, if_pos hth]

lemma monitorCycle_success_quiet (cfg : Config) (hash : String → String)
    (st : MonitorState) (text : String) (h : st.initHash = hash text)
    (hth : ¬ cfg.reportThreshold ≤ st.timeCounter) :
    monitorCycle cfg hash st (FetchResult.success text) =
      (⟨st.initHash, st.changeCounter, st.timeCounter + 1⟩,
       [Event.fetchAttempt, Event.sleep],
       CycleOutcome.cont) := by
  have hne : ¬ st.initHash ≠ hash text := by simp [h]
  simp only [monitorCycle, if_neg hne, if_neg hth]

/-! ## Claim C1 -/

/-- Claim C1: in a `Running` cycle whose fetch succeeds with a digest
different from the stored one, the loop increments `change_counter` by
exactly 1, stores the new digest in `init_hash`, publishes the change
message to both the change topic and the health topic, and leaves
`time_counter` at its pre-cycle value. -/
theorem c1_change_cycle (cfg : Config) (hash : String → String)
    (st : MonitorState) (text : String) (h : st.initHash ≠ hash text) :
    monitorCycle cfg hash st (FetchResult.success text) =
      (⟨hash text, st.changeCounter + 1, st.timeCounter⟩,
       [Event.fetchAttempt,
        Event.publish Topic.changeStatus Msg.changeDetected,
        Event.publish Topic.healthStatus Msg.changeDetected,
        Event.sleep],
       CycleOutcome.cont) :=
  monitorCycle_success_change cfg hash st text h

/-- Witness for C1 at a concrete changed fetch. -/
theorem c1_change_cycle_witness :
    (⟨"a", 0, 5⟩ : MonitorState).initHash ≠ (fun s : String => s) "b" ∧
    monitorCycle defaultConfig (fun s : String => s) ⟨"a", 0, 5⟩
        (FetchResult.success "b") =
      (⟨"b", 1, 5⟩,
       [Event.fetchAttempt,
        Event.publish Topic.changeStatus Msg.changeDetected,
        Event.publish Topic.healthStatus Msg.changeDetected,
        Event.sleep],
       CycleOutcome.cont) :=
  ⟨by decide,
   c1_change_cycle defaultConfig (fun s : String => s) ⟨"a", 0, 5⟩ "b" (by decide)⟩

/-! ## Claim C9 -/

/-- Claim C9: a cycle whose fetch is classified `NotFound` or `Timeout`
leaves every field of the state unchanged, publishes nothing on either
topic (its trace is just the fetch attempt and the pause), and lets
the loop continue. -/
theorem c9_recoverable_no_effect (cfg : Config) (hash : String → String)
    (st : MonitorState) :
    monitorCycle cfg hash st FetchResult.notFound =
      (st, [Event.fetchAttempt, Event.sleep], CycleOutcome.cont) ∧
    monitorCycle cfg hash st FetchResult.timeout =
      (st, [Event.fetchAttempt, Event.sleep], CycleOutcome.cont) :=
  ⟨monitorCycle_notFound cfg hash st, monitorCycle_timeout cfg hash st⟩

/-! ## Claim C3 (corrected)

The source tests `time_counter >= TIME_TO_REPORT_STATUS_MIN` *before*
incrementing, and increments again after the reset, so with threshold
2 the status message goes out on the third consecutive no-change
cycle, not the second, and the counter is left at 1, not 0. -/

/-- Counterexample to claim C3 as stated: threshold 2, counter starting
at 0, two consecutive no-change cycles — no health report is published
and the counter ends at 2, where the claim requires a report on the
second cycle and a counter of 0. -/
theorem c3_threshold_counterexample :
    countHealthOk (monitorLoop ⟨10, 2⟩ (fun s : String => s) ⟨"h", 0, 0⟩
        [FetchResult.success "h", FetchResult.success "h"]).2.1 = 0 ∧
    (monitorLoop ⟨10, 2⟩ (fun s : String => s) ⟨"h", 0, 0⟩
        [FetchResult.success "h", FetchResult.success "h"]).1.timeCounter = 2 := by
  decide

/-- Claim C3 as amended: a no-change cycle first checks whether the
counter has reached the threshold — publishing the health report and
resetting the counter to 0 if so — and then increments the counter
(so a reporting cycle leaves it at 1); with threshold 2 and the
counter starting at 0, the report goes out on the third consecutive
no-change cycle. -/
theorem c3_no_change_cycle_amended :
    (∀ (cfg : Config) (hash : String → String) (st : MonitorState) (text : String),
       st.initHash = hash text →
       monitorCycle cfg hash st (FetchResult.success text) =
         (⟨st.initHash, st.changeCounter,
           if cfg.reportThreshold ≤ st.timeCounter then 0 + 1
           else st.timeCounter + 1⟩,
          Event.fetchAttempt ::
            (if cfg.reportThreshold ≤ st.timeCounter then
               [Event.publish Topic.healthStatus Msg.noChangeStatus, Event.sleep]
             else [Event.sleep]),
          CycleOutcome.cont)) ∧
    (countHealthOk (monitorLoop ⟨10, 2⟩ (fun s : String => s) ⟨"h", 0, 0⟩
         [FetchResult.success "h", FetchResult.success "h",
          FetchResult.success "h"]).2.1 = 1 ∧
     (monitorLoop ⟨10, 2⟩ (fun s : String => s) ⟨"h", 0, 0⟩
         [FetchResult.success "h", FetchResult.success "h",
          FetchResult.success "h"]).1.timeCounter = 1) := by
  refine ⟨fun cfg hash st text h => ?_, by decide, by decide⟩
  by_cases hth : cfg.reportThreshold ≤ st.timeCounter
  · rw [monitorCycle_success_report cfg hash st text h hth]
    simp [hth]
  · rw [monitorCycle_success_quiet cfg hash st text h hth]
    simp [hth]

/-- Witness for the amended C3 at a concrete reporting cycle. -/
theorem c3_no_change_cycle_amended_witness :
    (⟨"h", 3, 2⟩ : MonitorState).initHash = (fun s : String => s) "h" ∧
    monitorCycle ⟨10, 2⟩ (fun s : String => s) ⟨"h", 3, 2⟩
        (FetchResult.success "h") =
      (⟨"h", 3, 1⟩,
       [Event.fetchAttempt,
        Event.publish Topic.healthStatus Msg.noChangeStatus,
        Event.sleep],
       CycleOutcome.cont) := by
  refine ⟨by decide, ?_⟩
  have := c3_no_change_cycle_amended.1 ⟨10, 2⟩ (fun s : String => s)
    ⟨"h", 3, 2⟩ "h" (by decide)
  simpa using this

/-! ## Claim C4 (corrected)

Because the increment follows the reset, the counter is 1 (not 0)
immediately after a reporting cycle.  The bound part of the claim does
hold: the counter never exceeds the threshold. -/

/-- Counterexample to claim C4 as stated: a cycle that publishes the
health report leaves the counter at 1, not 0. -/
theorem c4_reset_counterexample :
    countHealthOk (monitorCycle ⟨10, 2⟩ (fun s : String => s) ⟨"h", 0, 2⟩
        (FetchResult.success "h")).2.1 = 1 ∧
    (monitorCycle ⟨10, 2⟩ (fun s : String => s) ⟨"h", 0, 2⟩
        (FetchResult.success "h")).1.timeCounter = 1 := by
  decide

lemma monitorCycle_timeCounter_le (cfg : Config) (hash : String → String)
    (st : MonitorState) (fr : FetchResult)
    (h1 : 1 ≤ cfg.reportThreshold) (h2 : st.timeCounter ≤ cfg.reportThreshold) :
    (monitorCycle cfg hash st fr).1.timeCounter ≤ cfg.reportThreshold := by
  cases fr with
  | success text =>
    by_cases hch : st.initHash ≠ hash text
    · rw [monitorCycle_success_change cfg hash st text hch]
      exact h2
    · rw [not_not] at hch
      by_cases hth : cfg.reportThreshold ≤ st.timeCounter
      · rw [monitorCycle_success_report cfg hash st text hch hth]
        exact h1
      · rw [monitorCycle_success_quiet cfg hash st text hch hth]
        show st.timeCounter + 1 ≤ cfg.reportThreshold
        omega
  | notFound => exact h2
  | timeout => exact h2
  | unexpectedError d => exact h2

lemma monitorLoop_timeCounter_le (cfg : Config) (hash : String → String)
    (h1 : 1 ≤ cfg.reportThreshold) :
    ∀ (frs : List FetchResult) (st : MonitorState),
      st.timeCounter ≤ cfg.reportThreshold →
      (monitorLoop cfg hash st frs).1.timeCounter ≤ cfg.reportThreshold := by
  intro frs
  induction frs with
  | nil =>
    intro st h2
    by_cases hmax : cfg.maxChanges ≤ st.changeCounter <;>
      simp [monitorLoop, hmax, h2]
  | cons fr rest ih =>
    intro st h2
    by_cases hmax : cfg.maxChanges ≤ st.changeCounter
    · simp [monitorLoop, hmax, h2]
    · have hcy := monitorCycle_timeCounter_le cfg hash st fr h1 h2
      simp only [monitorLoop, if_neg hmax]
      cases hout : (monitorCycle cfg hash st fr).2.2 with
      | fatal => simpa [hout] using hcy
      | cont => simpa [hout] using ih (monitorCycle cfg hash st fr).1 hcy

/-- Claim C4 as amended: immediately after any cycle that publishes the
health report, `time_counter` equals 1 (it is reset to 0 and then
incremented by the shared increment); and whenever the threshold is
at least 1 and the counter starts no larger than the threshold, the
counter never exceeds the threshold at any cycle boundary of the
loop. -/
theorem c4_health_counter_amended :
    (∀ (cfg : Config) (hash : String → String) (st : MonitorState) (fr : FetchResult),
       Event.publish Topic.healthStatus Msg.noChangeStatus ∈
           (monitorCycle cfg hash st fr).2.1 →
       (monitorCycle cfg hash st fr).1.timeCounter = 1) ∧
    (∀ (cfg : Config) (hash : String → String) (st : MonitorState)
       (frs : List FetchResult),
       1 ≤ cfg.reportThreshold → st.timeCounter ≤ cfg.reportThreshold →
       (monitorLoop cfg hash st frs).1.timeCounter ≤ cfg.reportThreshold) := by
  constructor
  · intro cfg hash st fr hmem
    cases fr with
    | success text =>
      by_cases hch : st.initHash ≠ hash text
      · rw [monitorCycle_success_change cfg hash st text hch] at hmem
        simp at hmem
      · rw [not_not] at hch
        by_cases hth : cfg.reportThreshold ≤ st.timeCounter
        · rw [monitorCycle_success_report cfg hash st text hch hth]
        · rw [monitorCycle_success_quiet cfg hash st text hch hth] at hmem
          simp at hmem
    | notFound => simp [monitorCycle_notFound] at hmem
    | timeout => simp [monitorCycle_timeout] at hmem
    | unexpectedError d => simp [monitorCycle_unexpected] at hmem
  · intro cfg hash st frs h1 h2
    exact monitorLoop_timeCounter_le cfg hash h1 frs st h2

/-- Witness for the amended C4 at a concrete reporting cycle. -/
theorem c4_health_counter_amended_witness :
    Event.publish Topic.healthStatus Msg.noChangeStatus ∈
        (monitorCycle ⟨10, 2⟩ (fun s : String => s) ⟨"h", 0, 2⟩
          (FetchResult.success "h")).2.1 ∧
    (monitorCycle ⟨10, 2⟩ (fun s : String => s) ⟨"h", 0, 2⟩
        (FetchResult.success "h")).1.timeCounter = 1 :=
  ⟨by decide,
   c4_health_counter_amended.1 ⟨10, 2⟩ (fun s : String => s) ⟨"h", 0, 2⟩
     (FetchResult.success "h") (by decide)⟩

/-! ## Claim C8 (corrected)

In `main` the start message is published (line 122) *before* the
bootstrap fetch (lines 128–134) that establishes `init_hash`, so it is
not emitted at the transition into the running phase: it precedes the
bootstrap fetch and goes out even when that fetch fails. -/

lemma countStarted_append (l1 l2 : List Event) :
    countStarted (l1 ++ l2) = countStarted l1 + countStarted l2 := by
  simp [countStarted, List.filter_append]

lemma monitorCycle_countStarted (cfg : Config) (hash : String → String)
    (st : MonitorState) (fr : FetchResult) :
    countStarted (monitorCycle cfg hash st fr).2.1 = 0 := by
  cases fr with
  | success text =>
    by_cases hch : st.initHash ≠ hash text
    · rw [monitorCycle_success_change cfg hash st text hch]
      rfl
    · rw [not_not] at hch
      by_cases hth : cfg.reportThreshold ≤ st.timeCounter
      · rw [monitorCycle_success_report cfg hash st text hch hth]
        rfl
      · rw [monitorCycle_success_quiet cfg hash st text hch hth]
        rfl
  | notFound => rfl
  | timeout => rfl
  | unexpectedError d => rfl

lemma monitorLoop_countStarted (cfg : Config) (hash : String → String) :
    ∀ (frs : List FetchResult) (st : MonitorState),
      countStarted (monitorLoop cfg hash st frs).2.1 = 0 := by
  intro frs
  induction frs with
  | nil =>
    intro st
    by_cases hmax : cfg.maxChanges ≤ st.changeCounter <;>
      simp [monitorLoop, hmax, countStarted]
  | cons fr rest ih =>
    intro st
    by_cases hmax : cfg.maxChanges ≤ st.changeCounter
    · simp [monitorLoop, hmax, countStarted]
    · simp only [monitorLoop, if_neg hmax]
      cases hout : (monitorCycle cfg hash st fr).2.2 with
      | fatal => simpa [hout] using monitorCycle_countStarted cfg hash st fr
      | cont =>
        simp [hout, countStarted_append, monitorCycle_countStarted cfg hash st fr,
          ih (monitorCycle cfg hash st fr).1]

lemma monitorRun_trace (cfg : Config) (hash : String → String)
    (text : String) (frs : List FetchResult) :
    (monitorRun cfg hash (FetchResult.success text) frs).1 =
      [Event.publish Topic.healthStatus Msg.startMonitoring, Event.fetchAttempt] ++
        (monitorLoop cfg hash ⟨hash text, 0, 0⟩ frs).2.1 ++
        (if (monitorLoop cfg hash ⟨hash text, 0, 0⟩ frs).2.2 = LoopExit.outOfInput
         then []
         else [Event.quitDriver, Event.publish Topic.healthStatus Msg.stopped]) := by
  simp only [monitorRun]
  cases hout : (monitorLoop cfg hash ⟨hash text, 0, 0⟩ frs).2.2 <;> simp [hout]

/-- Counterexample to claim C8 as stated: a run whose bootstrap fetch
raises (so the run crashes before the monitoring phase and before
`init_hash` is ever established) has still published the start
message, because the source publishes it before the bootstrap
fetch. -/
theorem c8_started_counterexample :
    (monitorRun defaultConfig (fun s : String => s)
        (FetchResult.unexpectedError "boom") []).2 = RunResult.crashed ∧
    countStarted (monitorRun defaultConfig (fun s : String => s)
        (FetchResult.unexpectedError "boom") []).1 = 1 := by
  decide

/-- Claim C8 as amended: every run publishes the start message exactly
once, and it is the very first event of the run — before the bootstrap
fetch that establishes `init_hash`, and hence before any monitoring
cycle; it is published even when the bootstrap fetch fails. -/
theorem c8_started_amended (cfg : Config) (hash : String → String)
    (bootstrap : FetchResult) (frs : List FetchResult) :
    countStarted (monitorRun cfg hash bootstrap frs).1 = 1 ∧
    List.head? (monitorRun cfg hash bootstrap frs).1 =
      some (Event.publish Topic.healthStatus Msg.startMonitoring) := by
  cases bootstrap with
  | success text =>
    rw [monitorRun_trace cfg hash text frs]
    refine ⟨?_, rfl⟩
    rw [countStarted_append, countStarted_append,
      monitorLoop_countStarted cfg hash frs ⟨hash text, 0, 0⟩]
    split <;> rfl
  | notFound => exact ⟨rfl, rfl⟩
  | timeout => exact ⟨rfl, rfl⟩
  | unexpectedError d => exact ⟨rfl, rfl⟩

/-! ## Loop unfolding helpers -/

lemma monitorLoop_max (cfg : Config) (hash : String → String)
    (st : MonitorState) (frs : List FetchResult)
    (hmax : cfg.maxChanges ≤ st.changeCounter) :
    monitorLoop cfg hash st frs = (st, [], LoopExit.maxReached) := by
  cases frs <;> simp [monitorLoop, hmax]

lemma monitorLoop_nil (cfg : Config) (hash : String → String)
    (st : MonitorState) (hmax : ¬ cfg.maxChanges ≤ st.changeCounter) :
    monitorLoop cfg hash st [] = (st, [], LoopExit.outOfInput) := by
  simp [monitorLoop, hmax]

lemma monitorLoop_cons_cont (cfg : Config) (hash : String → String)
    (st : MonitorState) (fr : FetchResult) (rest : List FetchResult)
    (st' : MonitorState) (evs : List Event)
    (hmax : ¬ cfg.maxChanges ≤ st.changeCounter)
    (hcy : monitorCycle cfg hash st fr = (st', evs, CycleOutcome.cont)) :
    (monitorLoop cfg hash st (fr :: rest)).1 = (monitorLoop cfg hash st' rest).1 ∧
    (monitorLoop cfg hash st (fr :: rest)).2.1 =
      evs ++ (monitorLoop cfg hash st' rest).2.1 ∧
    (monitorLoop cfg hash st (fr :: rest)).2.2 =
      (monitorLoop cfg hash st' rest).2.2 := by
  refine ⟨?_, ?_, ?_⟩ <;> simp [monitorLoop, hmax, hcy]

lemma monitorLoop_cons_fatal (cfg : Config) (hash : String → String)
    (st : MonitorState) (fr : FetchResult) (rest : List FetchResult)
    (st' : MonitorState) (evs : List Event)
    (hmax : ¬ cfg.maxChanges ≤ st.changeCounter)
    (hcy : monitorCycle cfg hash st fr = (st', evs, CycleOutcome.fatal)) :
    monitorLoop cfg hash st (fr :: rest) = (st', evs, LoopExit.fatalError) := by
  simp [monitorLoop, hmax, hcy]

/-! ## Claim C2 -/

lemma monitorCycle_changeCounter (cfg : Config) (hash : String → String)
    (st : MonitorState) (fr : FetchResult) :
    (monitorCycle cfg hash st fr).1.changeCounter =
      st.changeCounter + (if cycleDetectsChange hash st fr then 1 else 0) := by
  cases fr with
  | success text =>
    by_cases hch : st.initHash ≠ hash text
    · rw [monitorCycle_success_change cfg hash st text hch]
      simp [cycleDetectsChange, bne_iff_ne, hch]
    · rw [not_not] at hch
      by_cases hth : cfg.reportThreshold ≤ st.timeCounter
      · rw [monitorCycle_success_report cfg hash st text hch hth]
        simp [cycleDetectsChange, hch]
      · rw [monitorCycle_success_quiet cfg hash st text hch hth]
        simp [cycleDetectsChange, hch]
  | notFound => simp [monitorCycle_notFound, cycleDetectsChange]
  | timeout => simp [monitorCycle_timeout, cycleDetectsChange]
  | unexpectedError d => simp [monitorCycle_unexpected, cycleDetectsChange]

lemma monitorLoop_changeCounter (cfg : Config) (hash : String → String) :
    ∀ (frs : List FetchResult) (st : MonitorState),
      (monitorLoop cfg hash st frs).2.2 = LoopExit.outOfInput →
      (monitorLoop cfg hash st frs).1.changeCounter =
        st.changeCounter + changeCycleCount hash st.initHash frs := by
  intro frs
  induction frs with
  | nil =>
    intro st hexit
    by_cases hmax : cfg.maxChanges ≤ st.changeCounter
    · rw [monitorLoop_max cfg hash st [] hmax] at hexit
      exact absurd hexit (by simp)
    · rw [monitorLoop_nil cfg hash st hmax]
      simp [changeCycleCount]
  | cons fr rest ih =>
    intro st hexit
    by_cases hmax : cfg.maxChanges ≤ st.changeCounter
    · rw [monitorLoop_max cfg hash st (fr :: rest) hmax] at hexit
      exact absurd hexit (by simp)
    · cases fr with
      | success text =>
        by_cases hch : st.initHash ≠ hash text
        · have h := monitorLoop_cons_cont cfg hash st (FetchResult.success text)
            rest _ _ hmax (monitorCycle_success_change cfg hash st text hch)
          rw [h.2.2] at hexit
          rw [h.1, ih _ hexit]
          simp only [changeCycleCount, if_pos hch]
          omega
        · rw [not_not] at hch
          by_cases hth : cfg.reportThreshold ≤ st.timeCounter
          · have h := monitorLoop_cons_cont cfg hash st (FetchResult.success text)
              rest _ _ hmax (monitorCycle_success_report cfg hash st text hch hth)
            rw [h.2.2] at hexit
            rw [h.1, ih _ hexit]
            have hnch : ¬ st.initHash ≠ hash text := by simp [hch]
            simp only [changeCycleCount, if_neg hnch]
          · have h := monitorLoop_cons_cont cfg hash st (FetchResult.success text)
              rest _ _ hmax (monitorCycle_success_quiet cfg hash st text hch hth)
            rw [h.2.2] at hexit
            rw [h.1, ih _ hexit]
            have hnch : ¬ st.initHash ≠ hash text := by simp [hch]
            simp only [changeCycleCount, if_neg hnch]
      | notFound =>
        have h := monitorLoop_cons_cont cfg hash st FetchResult.notFound
          rest _ _ hmax (monitorCycle_notFound cfg hash st)
        rw [h.2.2] at hexit
        rw [h.1, ih _ hexit]
        simp only [changeCycleCount]
      | timeout =>
        have h := monitorLoop_cons_cont cfg hash st FetchResult.timeout
          rest _ _ hmax (monitorCycle_timeout cfg hash st)
        rw [h.2.2] at hexit
        rw [h.1, ih _ hexit]
        simp only [changeCycleCount]
      | unexpectedError d =>
        rw [monitorLoop_cons_fatal cfg hash st (FetchResult.unexpectedError d)
          rest _ _ hmax (monitorCycle_unexpected cfg hash st d)] at hexit
        exact absurd hexit (by simp)

/-- Claim C2: per cycle, `change_counter` grows by exactly 1 when the
fetch succeeded with a digest differing from the stored one and is
untouched in every other cycle; over any completed sequence of cycles
it equals its initial value plus the number of such change cycles. -/
theorem c2_change_count_invariant :
    (∀ (cfg : Config) (hash : String → String) (st : MonitorState)
       (fr : FetchResult),
       (monitorCycle cfg hash st fr).1.changeCounter =
         st.changeCounter + (if cycleDetectsChange hash st fr then 1 else 0)) ∧
    (∀ (cfg : Config) (hash : String → String) (st : MonitorState)
       (frs : List FetchResult),
       (monitorLoop cfg hash st frs).2.2 = LoopExit.outOfInput →
       (monitorLoop cfg hash st frs).1.changeCounter =
         st.changeCounter + changeCycleCount hash st.initHash frs) :=
  ⟨monitorCycle_changeCounter, fun cfg hash st frs =>
    monitorLoop_changeCounter cfg hash frs st⟩

/-- Witness for C2 on a concrete four-cycle run with two changes. -/
theorem c2_change_count_invariant_witness :
    (monitorLoop defaultConfig (fun s : String => s) ⟨"a", 0, 0⟩
        [FetchResult.success "b", FetchResult.notFound,
         FetchResult.success "b", FetchResult.success "c"]).2.2 =
      LoopExit.outOfInput ∧
    (monitorLoop defaultConfig (fun s : String => s) ⟨"a", 0, 0⟩
        [FetchResult.success "b", FetchResult.notFound,
         FetchResult.success "b", FetchResult.success "c"]).1.changeCounter =
      0 + changeCycleCount (fun s : String => s) "a"
        [FetchResult.success "b", FetchResult.notFound,
         FetchResult.success "b", FetchResult.success "c"] :=
  ⟨by decide,
   c2_change_count_invariant.2 defaultConfig (fun s : String => s) ⟨"a", 0, 0⟩
     [FetchResult.success "b", FetchResult.notFound,
      FetchResult.success "b", FetchResult.success "c"] (by decide)⟩

/-! ## Claim C5 -/

lemma monitorCycle_fatal_shape (cfg : Config) (hash : String → String)
    (st : MonitorState) (fr : FetchResult)
    (hout : (monitorCycle cfg hash st fr).2.2 = CycleOutcome.fatal) :
    ∃ d, fr = FetchResult.unexpectedError d := by
  cases fr with
  | success text =>
    by_cases hch : st.initHash ≠ hash text
    · rw [monitorCycle_success_change cfg hash st text hch] at hout
      exact absurd hout (by simp)
    · rw [not_not] at hch
      by_cases hth : cfg.reportThreshold ≤ st.timeCounter
      · rw [monitorCycle_success_report cfg hash st text hch hth] at hout
        exact absurd hout (by simp)
      · rw [monitorCycle_success_quiet cfg hash st text hch hth] at hout
        exact absurd hout (by simp)
  | notFound => exact absurd hout (by simp [monitorCycle_notFound])
  | timeout => exact absurd hout (by simp [monitorCycle_timeout])
  | unexpectedError d => exact ⟨d, rfl⟩

lemma monitorCycle_cont_no_fatal (cfg : Config) (hash : String → String)
    (st : MonitorState) (fr : FetchResult)
    (hout : (monitorCycle cfg hash st fr).2.2 = CycleOutcome.cont) (d : String) :
    Event.publish Topic.healthStatus (Msg.fatal d) ∉
      (monitorCycle cfg hash st fr).2.1 := by
  cases fr with
  | success text =>
    by_cases hch : st.initHash ≠ hash text
    · rw [monitorCycle_success_change cfg hash st text hch]
      simp
    · rw [not_not] at hch
      by_cases hth : cfg.reportThreshold ≤ st.timeCounter
      · rw [monitorCycle_success_report cfg hash st text hch hth]
        simp
      · rw [monitorCycle_success_quiet cfg hash st text hch hth]
        simp
  | notFound => simp [monitorCycle_notFound]
  | timeout => simp [monitorCycle_timeout]
  | unexpectedError e =>
    rw [monitorCycle_unexpected] at hout
    exact absurd hout (by simp)

lemma monitorLoop_maxReached_iff (cfg : Config) (hash : String → String) :
    ∀ (frs : List FetchResult) (st : MonitorState),
      ((monitorLoop cfg hash st frs).2.2 = LoopExit.maxReached ↔
        cfg.maxChanges ≤ (monitorLoop cfg hash st frs).1.changeCounter) := by
  intro frs
  induction frs with
  | nil =>
    intro st
    by_cases hmax : cfg.maxChanges ≤ st.changeCounter
    · rw [monitorLoop_max cfg hash st [] hmax]
      simpa using hmax
    · rw [monitorLoop_nil cfg hash st hmax]
      simpa using hmax
  | cons fr rest ih =>
    intro st
    by_cases hmax : cfg.maxChanges ≤ st.changeCounter
    · rw [monitorLoop_max cfg hash st (fr :: rest) hmax]
      simpa using hmax
    · cases hout : (monitorCycle cfg hash st fr).2.2 with
      | fatal =>
        obtain ⟨d, rfl⟩ := monitorCycle_fatal_shape cfg hash st fr hout
        rw [monitorLoop_cons_fatal cfg hash st _ rest _ _ hmax
          (monitorCycle_unexpected cfg hash st d)]
        simpa using hmax
      | cont =>
        have hcy : monitorCycle cfg hash st fr =
            ((monitorCycle cfg hash st fr).1, (monitorCycle cfg hash st fr).2.1,
             CycleOutcome.cont) := by rw [← hout]
        have h := monitorLoop_cons_cont cfg hash st fr rest _ _ hmax hcy
        rw [h.2.2, h.1]
        exact ih _

lemma monitorLoop_fatalError_iff (cfg : Config) (hash : String → String) :
    ∀ (frs : List FetchResult) (st : MonitorState),
      ((monitorLoop cfg hash st frs).2.2 = LoopExit.fatalError ↔
        ∃ d, Event.publish Topic.healthStatus (Msg.fatal d) ∈
          (monitorLoop cfg hash st frs).2.1) := by
  intro frs
  induction frs with
  | nil =>
    intro st
    by_cases hmax : cfg.maxChanges ≤ st.changeCounter
    · rw [monitorLoop_max cfg hash st [] hmax]
      simp
    · rw [monitorLoop_nil cfg hash st hmax]
      simp
  | cons fr rest ih =>
    intro st
    by_cases hmax : cfg.maxChanges ≤ st.changeCounter
    · rw [monitorLoop_max cfg hash st (fr :: rest) hmax]
      simp
    · cases hout : (monitorCycle cfg hash st fr).2.2 with
      | fatal =>
        obtain ⟨d, rfl⟩ := monitorCycle_fatal_shape cfg hash st fr hout
        rw [monitorLoop_cons_fatal cfg hash st _ rest _ _ hmax
          (monitorCycle_unexpected cfg hash st d)]
        simp
      | cont =>
        have hcy : monitorCycle cfg hash st fr =
            ((monitorCycle cfg hash st fr).1, (monitorCycle cfg hash st fr).2.1,
             CycleOutcome.cont) := by rw [← hout]
        have h := monitorLoop_cons_cont cfg hash st fr rest _ _ hmax hcy
        rw [h.2.2, h.2.1]
        constructor
        · intro hf
          obtain ⟨d, hd⟩ := (ih _).mp hf
          exact ⟨d, List.mem_append_right _ hd⟩
        · rintro ⟨d, hd⟩
          rcases List.mem_append.mp hd with hleft | hright
          · exact absurd hleft (monitorCycle_cont_no_fatal cfg hash st fr hout d)
          · exact (ih _).mpr ⟨d, hright⟩

/-- Claim C5: a finite run of the loop ends in `maxReached` exactly
when the final `change_counter` has reached the configured maximum,
and ends in `fatalError` exactly when an unexpected-error diagnostic
was published to the health topic; no other condition ends the loop
(exhausting the supplied fetch outcomes leaves it `outOfInput`,
i.e. still running). -/
theorem c5_exit_characterization (cfg : Config) (hash : String → String)
    (st : MonitorState) (frs : List FetchResult) :
    ((monitorLoop cfg hash st frs).2.2 = LoopExit.maxReached ↔
      cfg.maxChanges ≤ (monitorLoop cfg hash st frs).1.changeCounter) ∧
    ((monitorLoop cfg hash st frs).2.2 = LoopExit.fatalError ↔
      ∃ d, Event.publish Topic.healthStatus (Msg.fatal d) ∈
        (monitorLoop cfg hash st frs).2.1) :=
  ⟨monitorLoop_maxReached_iff cfg hash frs st,
   monitorLoop_fatalError_iff cfg hash frs st⟩

/-! ## Claim C6 -/

lemma monitorRun_result (cfg : Config) (hash : String → String)
    (text : String) (frs : List FetchResult) :
    (monitorRun cfg hash (FetchResult.success text) frs).2 =
      if (monitorLoop cfg hash ⟨hash text, 0, 0⟩ frs).2.2 = LoopExit.outOfInput
      then RunResult.inProgress (monitorLoop cfg hash ⟨hash text, 0, 0⟩ frs).1
      else RunResult.finished (monitorLoop cfg hash ⟨hash text, 0, 0⟩ frs).1
             (monitorLoop cfg hash ⟨hash text, 0, 0⟩ frs).2.2 := by
  simp only [monitorRun]
  cases hout : (monitorLoop cfg hash ⟨hash text, 0, 0⟩ frs).2.2 <;> simp [hout]

/-- Claim C6: a cycle whose fetch is classified as an unexpected error
publishes the full diagnostic to the health topic, leaves the state
untouched, and ends the loop (after the `finally` pause); and any run
whose loop ended through that fatal branch still quits the driver and
publishes the stop message as its last two events, with the fatal
diagnostic present in its trace — a graceful shutdown, not a crash. -/
theorem c6_fatal_error_shutdown :
    (∀ (cfg : Config) (hash : String → String) (st : MonitorState) (d : String),
       monitorCycle cfg hash st (FetchResult.unexpectedError d) =
         (st, [Event.fetchAttempt,
               Event.publish Topic.healthStatus (Msg.fatal d),
               Event.sleep],
          CycleOutcome.fatal)) ∧
    (∀ (cfg : Config) (hash : String → String) (text : String)
       (frs : List FetchResult) (st0 : MonitorState),
       (monitorRun cfg hash (FetchResult.success text) frs).2 =
         RunResult.finished st0 LoopExit.fatalError →
       (∃ evs, (monitorRun cfg hash (FetchResult.success text) frs).1 =
          evs ++ [Event.quitDriver,
                  Event.publish Topic.healthStatus Msg.stopped]) ∧
       ∃ d, Event.publish Topic.healthStatus (Msg.fatal d) ∈
         (monitorRun cfg hash (FetchResult.success text) frs).1) := by
  constructor
  · intro cfg hash st d
    rfl
  · intro cfg hash text frs st0 hrun
    have hres := monitorRun_result cfg hash text frs
    rw [hrun] at hres
    by_cases hoi : (monitorLoop cfg hash ⟨hash text, 0, 0⟩ frs).2.2 =
        LoopExit.outOfInput
    · rw [if_pos hoi] at hres
      exact absurd hres (by simp)
    · rw [if_neg hoi] at hres
      injection hres with h1 h2
      have hexit : (monitorLoop cfg hash ⟨hash text, 0, 0⟩ frs).2.2 =
          LoopExit.fatalError := h2.symm
      constructor
      · refine ⟨[Event.publish Topic.healthStatus Msg.startMonitoring,
          Event.fetchAttempt] ++ (monitorLoop cfg hash ⟨hash text, 0, 0⟩ frs).2.1, ?_⟩
        rw [monitorRun_trace cfg hash text frs, if_neg hoi]
      · obtain ⟨d, hd⟩ :=
          (monitorLoop_fatalError_iff cfg hash frs ⟨hash text, 0, 0⟩).mp hexit
        refine ⟨d, ?_⟩
        rw [monitorRun_trace cfg hash text frs]
        simp [hd]

/-- Witness for C6 on a run whose single cycle hits an unexpected
error. -/
theorem c6_fatal_error_shutdown_witness :
    (monitorRun defaultConfig (fun s : String => s) (FetchResult.success "a")
        [FetchResult.unexpectedError "boom"]).2 =
      RunResult.finished ⟨"a", 0, 0⟩ LoopExit.fatalError ∧
    ((∃ evs, (monitorRun defaultConfig (fun s : String => s)
          (FetchResult.success "a") [FetchResult.unexpectedError "boom"]).1 =
        evs ++ [Event.quitDriver,
                Event.publish Topic.healthStatus Msg.stopped]) ∧
     ∃ d, Event.publish Topic.healthStatus (Msg.fatal d) ∈
       (monitorRun defaultConfig (fun s : String => s)
         (FetchResult.success "a") [FetchResult.unexpectedError "boom"]).1) :=
  ⟨by decide,
   c6_fatal_error_shutdown.2 defaultConfig (fun s : String => s) "a"
     [FetchResult.unexpectedError "boom"] ⟨"a", 0, 0⟩ (by decide)⟩

/-! ## Claim C7 -/

lemma monitorCycle_trace_shape (cfg : Config) (hash : String → String)
    (st : MonitorState) (fr : FetchResult) :
    ∃ mid, (monitorCycle cfg hash st fr).2.1 =
      Event.fetchAttempt :: mid ++ [Event.sleep] := by
  cases fr with
  | success text =>
    by_cases hch : st.initHash ≠ hash text
    · rw [monitorCycle_success_change cfg hash st text hch]
      exact ⟨[Event.publish Topic.changeStatus Msg.changeDetected,
              Event.publish Topic.healthStatus Msg.changeDetected], rfl⟩
    · rw [not_not] at hch
      by_cases hth : cfg.reportThreshold ≤ st.timeCounter
      · rw [monitorCycle_success_report cfg hash st text hch hth]
        exact ⟨[Event.publish Topic.healthStatus Msg.noChangeStatus], rfl⟩
      · rw [monitorCycle_success_quiet cfg hash st text hch hth]
        exact ⟨[], rfl⟩
  | notFound => exact ⟨[], rfl⟩
  | timeout => exact ⟨[], rfl⟩
  | unexpectedError d =>
    exact ⟨[Event.publish Topic.healthStatus (Msg.fatal d)], rfl⟩

lemma monitorCycle_filter_fetchSleep (cfg : Config) (hash : String → String)
    (st : MonitorState) (fr : FetchResult) :
    (monitorCycle cfg hash st fr).2.1.filter isFetchOrSleep =
      [Event.fetchAttempt, Event.sleep] := by
  cases fr with
  | success text =>
    by_cases hch : st.initHash ≠ hash text
    · rw [monitorCycle_success_change cfg hash st text hch]
      rfl
    · rw [not_not] at hch
      by_cases hth : cfg.reportThreshold ≤ st.timeCounter
      · rw [monitorCycle_success_report cfg hash st text hch hth]
        rfl
      · rw [monitorCycle_success_quiet cfg hash st text hch hth]
        rfl
  | notFound => rfl
  | timeout => rfl
  | unexpectedError d => rfl

lemma noAdjacentFetches_sleep_cons (l : List Event) :
    noAdjacentFetches (Event.sleep :: l) = noAdjacentFetches l := by
  cases l with
  | nil => rfl
  | cons b rest => simp [noAdjacentFetches, isFetchEvent]

lemma noAdjacentFetches_fetch_sleep (l : List Event) :
    noAdjacentFetches (Event.fetchAttempt :: Event.sleep :: l) =
      noAdjacentFetches l := by
  have h1 : noAdjacentFetches (Event.fetchAttempt :: Event.sleep :: l) =
      noAdjacentFetches (Event.sleep :: l) := by
    simp [noAdjacentFetches, isFetchEvent]
  rw [h1, noAdjacentFetches_sleep_cons]

lemma monitorLoop_noAdjacentFetches (cfg : Config) (hash : String → String) :
    ∀ (frs : List FetchResult) (st : MonitorState),
      noAdjacentFetches
        ((monitorLoop cfg hash st frs).2.1.filter isFetchOrSleep) = true := by
  intro frs
  induction frs with
  | nil =>
    intro st
    by_cases hmax : cfg.maxChanges ≤ st.changeCounter
    · rw [monitorLoop_max cfg hash st [] hmax]
      rfl
    · rw [monitorLoop_nil cfg hash st hmax]
      rfl
  | cons fr rest ih =>
    intro st
    by_cases hmax : cfg.maxChanges ≤ st.changeCounter
    · rw [monitorLoop_max cfg hash st (fr :: rest) hmax]
      rfl
    · cases hout : (monitorCycle cfg hash st fr).2.2 with
      | fatal =>
        obtain ⟨d, rfl⟩ := monitorCycle_fatal_shape cfg hash st fr hout
        rw [monitorLoop_cons_fatal cfg hash st _ rest _ _ hmax
          (monitorCycle_unexpected cfg hash st d)]
        rfl
      | cont =>
        have hcy : monitorCycle cfg hash st fr =
            ((monitorCycle cfg hash st fr).1, (monitorCycle cfg hash st fr).2.1,
             CycleOutcome.cont) := by rw [← hout]
        have h := monitorLoop_cons_cont cfg hash st fr rest _ _ hmax hcy
        rw [h.2.1, List.filter_append, monitorCycle_filter_fetchSleep cfg hash st fr,
          List.cons_append, List.cons_append, List.nil_append,
          noAdjacentFetches_fetch_sleep]
        exact ih _

/-- Claim C7: every cycle's trace, whatever branch it took (change,
no-change, not-found, timeout, or the fatal branch), starts with its
fetch attempt and ends with the `finally` pause; consequently, in the
trace of any sequence of cycles, no two fetch attempts are adjacent
once only fetches and sleeps are kept — every two fetch attempts of
the loop are separated by at least one pause. -/
theorem c7_unconditional_pause :
    (∀ (cfg : Config) (hash : String → String) (st : MonitorState)
       (fr : FetchResult),
       ∃ mid, (monitorCycle cfg hash st fr).2.1 =
         Event.fetchAttempt :: mid ++ [Event.sleep]) ∧
    (∀ (cfg : Config) (hash : String → String) (st : MonitorState)
       (frs : List FetchResult),
       noAdjacentFetches
         ((monitorLoop cfg hash st frs).2.1.filter isFetchOrSleep) = true) :=
  ⟨monitorCycle_trace_shape, fun cfg hash st frs =>
    monitorLoop_noAdjacentFetches cfg hash frs st⟩

/-! ## Claim C10 -/

/-- Claim C10: in the change branch, if either `sns.publish` call
raises, the generic handler publishes the diagnostic to the health
topic and the loop ends, with `init_hash` and `change_counter` still
holding their pre-cycle values — the state mutation happens only when
both publishes succeed, in which case it is exactly the normal change
update; and with both publishes succeeding the publish-explicit cycle
coincides with the plain cycle. -/
theorem c10_publish_failure_atomicity :
    (∀ (cfg : Config) (st : MonitorState) (h : String) (pub1 pub2 : Option String),
       st.initHash ≠ h → pub1.isSome ∨ pub2.isSome →
       (successCycleWithPublish cfg st h pub1 pub2).1 = st ∧
       (successCycleWithPublish cfg st h pub1 pub2).2.2 = CycleOutcome.fatal ∧
       ∃ d, Event.publish Topic.healthStatus (Msg.fatal d) ∈
         (successCycleWithPublish cfg st h pub1 pub2).2.1) ∧
    (∀ (cfg : Config) (st : MonitorState) (h : String),
       st.initHash ≠ h →
       (successCycleWithPublish cfg st h none none).1 =
         ⟨h, st.changeCounter + 1, st.timeCounter⟩) ∧
    (∀ (cfg : Config) (hash : String → String) (st : MonitorState)
       (text : String),
       successCycleWithPublish cfg st (hash text) none none =
         monitorCycle cfg hash st (FetchResult.success text)) := by
  refine ⟨?_, ?_, ?_⟩
  · intro cfg st h pub1 pub2 hch hfail
    cases pub1 with
    | some e =>
      refine ⟨?_, ?_, ⟨e, ?_⟩⟩ <;> simp [successCycleWithPublish, hch]
    | none =>
      cases pub2 with
      | some e =>
        refine ⟨?_, ?_, ⟨e, ?_⟩⟩ <;> simp [successCycleWithPublish, hch]
      | none => simp at hfail
  · intro cfg st h hch
    simp [successCycleWithPublish, hch]
  · intro cfg hash st text
    by_cases hch : st.initHash ≠ hash text
    · rw [monitorCycle_success_change cfg hash st text hch]
      simp [successCycleWithPublish, hch]
    · rw [not_not] at hch
      by_cases hth : cfg.reportThreshold ≤ st.timeCounter
      · rw [monitorCycle_success_report cfg hash st text hch hth]
        simp [successCycleWithPublish, hch, hth]
      · rw [monitorCycle_success_quiet cfg hash st text hch hth]
        simp [successCycleWithPublish, hch, hth]

/-- Witness for C10: the first publish of a concrete change cycle
raises, the state is untouched and the cycle turns fatal. -/
theorem c10_publish_failure_atomicity_witness :
    ((⟨"a", 0, 0⟩ : MonitorState).initHash ≠ "b" ∧
      (Option.some "boom").isSome ∨ (Option.none : Option String).isSome) ∧
    (successCycleWithPublish defaultConfig ⟨"a", 0, 0⟩ "b"
        (some "boom") none).1 = ⟨"a", 0, 0⟩ ∧
    (successCycleWithPublish defaultConfig ⟨"a", 0, 0⟩ "b"
        (some "boom") none).2.2 = CycleOutcome.fatal ∧
    (∃ d, Event.publish Topic.healthStatus (Msg.fatal d) ∈
      (successCycleWithPublish defaultConfig ⟨"a", 0, 0⟩ "b"
        (some "boom") none).2.1) :=
  ⟨Or.inl ⟨by decide, by decide⟩,
   c10_publish_failure_atomicity.1 defaultConfig ⟨"a", 0, 0⟩ "b"
     (some "boom") none (by decide) (Or.inl (by decide))⟩
